/-
Shallow embedding of the HeritagePlus museum management system
(business_layer.py, data_access_layer.py, database.py) and proofs
settling the frozen claims about its specification.

Modelling conventions, fixed once for the whole file:
* Python float arithmetic is modelled exactly over `ℚ` (the values the
  code manipulates here are small decimals; binary rounding noise is
  abstracted away).  `round(x, 2)` is modelled by `round2` below.
* Calendar dates (`YYYY-MM-DD` strings in the code) are modelled as
  integers (day numbers): string comparison of such dates is
  order-isomorphic to integer comparison, which is what the SQL
  `BETWEEN` / `<=` comparisons use.  Julian-day values produced by
  `julianday` are modelled as rationals (they carry a fractional
  time-of-day part).
* The SQLite store of database.py is part of the model: inserts enforce
  the schema's UNIQUE / CHECK / FOREIGN KEY constraints.  A violated
  constraint surfaces through `MuseumDAL.execute_write` as the wrapped
  "Data integrity violation" error, modelled as `Err.integrity`.
* Every raise site of the Python code is mapped to one constructor of
  `Err`, following the taxonomy of the specification (section 7):
  `ValueError` from a service/repository pre-check is `Err.validation`
  (or `Err.duplicate` / `Err.notFound` for the "already exists" /
  "not found" messages), `PermissionError` is `Err.permission`, and a
  wrapped `sqlite3.IntegrityError` is `Err.integrity`.
* A failed operation returns `Except.error` and no new state: the
  `with` connection context of the code rolls the transaction back, so
  an error leaves the database unchanged.
-/
import Mathlib

namespace MuseumSys

/-- Embeds Python `str.strip()`: drop leading and trailing whitespace.
(Defined structurally over the character list rather than through
`String.trim` so that concrete instances evaluate inside the kernel;
the two agree on the ASCII whitespace these strings contain.) -/
def pyStrip (s : String) : String :=
  ⟨((s.data.dropWhile Char.isWhitespace).reverse.dropWhile Char.isWhitespace).reverse⟩

/-- Embeds Python `str.lower()`: character-wise lowercasing. -/
def strLower (s : String) : String :=
  ⟨s.data.map Char.toLower⟩

/-- Error taxonomy of the specification, one constructor per kind of
raise site in the code (see the header comment). -/
inductive Err where
  | validation
  | duplicate
  | notFound
  | permission
  | integrity
deriving DecidableEq, Repr

/-- Decidable equality on `Except` results, used to evaluate the model
on concrete inputs. -/
instance {ε α : Type} [DecidableEq ε] [DecidableEq α] : DecidableEq (Except ε α)
  | .error a, .error b =>
      if h : a = b then .isTrue (by rw [h]) else .isFalse (by intro hc; cases hc; exact h rfl)
  | .error _, .ok _ => .isFalse (by intro hc; cases hc)
  | .ok _, .error _ => .isFalse (by intro hc; cases hc)
  | .ok a, .ok b =>
      if h : a = b then .isTrue (by rw [h]) else .isFalse (by intro hc; cases hc; exact h rfl)

/-- Embedding of Python `round(x, 2)` over `ℚ`.  (Python rounds
half-to-even on binary floats; the two differ only on exact half-cent
values, which no theorem below goes near.) -/
def round2 (q : ℚ) : ℚ := round (q * 100) / 100

/- ---------------------------------------------------------------
   Authentication (business_layer.AuthenticationService,
   data_access_layer.AuthenticationDAL)
   --------------------------------------------------------------- -/

/-- Embeds `role_hierarchy = {'viewer': 1, 'curator': 2, 'admin': 3}`
looked up with `.get(role, 0)` in `AuthenticationDAL.check_permission`. -/
def role_hierarchy (role : String) : Nat :=
  if role = "viewer" then 1
  else if role = "curator" then 2
  else if role = "admin" then 3
  else 0

/-- Embeds `AuthenticationDAL.check_permission`. -/
def check_permission (user_role required_role : String) : Bool :=
  role_hierarchy user_role ≥ role_hierarchy required_role

/-- Embeds `AuthenticationService.check_access`, a direct delegation to
`check_permission`. -/
def check_access (user_role required_role : String) : Bool :=
  check_permission user_role required_role

/-- A row of the `users` table (the password hash is irrelevant to the
claims and omitted; `username` is UNIQUE in the schema). -/
structure UserRow where
  user_id : Nat
  username : String
  role : String
deriving DecidableEq, Repr

/-- A row of the `audit_log` table. -/
structure AuditRow where
  user_id : Nat
  table_name : String
  action : String
  record_id : Nat
  details : String
deriving DecidableEq, Repr

/-- The part of the database state the authentication claims touch. -/
structure AuthState where
  users : List UserRow
  audit_log : List AuditRow
deriving DecidableEq, Repr

/-- Embeds `MuseumDAL.log_audit`: the audit row is written only when the
DAL instance carries an acting user id (`if self.user_id:`). -/
def log_audit (acting : Option Nat) (st : AuthState) (table_name action : String)
    (record_id : Nat) (details : String) : AuthState :=
  match acting with
  | none => st
  | some uid =>
      { st with audit_log := st.audit_log ++ [⟨uid, table_name, action, record_id, details⟩] }

/-- Embeds `AuthenticationDAL.create_user`: role whitelist check, INSERT
into `users` (whose UNIQUE(username) constraint is enforced by the
store), then `log_audit`. -/
def dal_create_user (acting : Option Nat) (st : AuthState)
    (username password role : String) : Except Err (Nat × AuthState) :=
  if ¬ (role = "admin" ∨ role = "curator" ∨ role = "viewer") then
    .error .validation
  else if st.users.any (fun u => u.username = username) then
    .error .integrity
  else
    let uid := st.users.length + 1
    let st1 : AuthState := { st with users := st.users ++ [⟨uid, username, role⟩] }
    .ok (uid, log_audit acting st1 "users" "INSERT" uid ("Created user: " ++ username))

/-- Embeds `AuthenticationService.create_new_user`.  The service
constructs its DAL as `AuthenticationDAL()`, i.e. with `user_id = None`,
so the DAL call is made with no acting user. -/
def create_new_user (st : AuthState) (username password role requester_role : String) :
    Except Err (Nat × AuthState) :=
  if ¬ check_permission requester_role "admin" then .error .permission
  else if password.length < 8 then .error .validation
  else if username.length < 3 then .error .validation
  else dal_create_user none st username password role

/- ---------------------------------------------------------------
   Museum service (business_layer.MuseumService,
   data_access_layer.MuseumRepository)
   --------------------------------------------------------------- -/

/-- A row of the `museum` table. -/
structure MuseumRow where
  id : Nat
  museum_name : String
  city : String
  address : String
  phone : String
  opening_hours : String
deriving DecidableEq, Repr

/-- The museum table state. -/
abbrev MuseumState := List MuseumRow

/-- Character class of the regex `^[\d\s\-\+\(\)]+$` used by
`MuseumService._validate_phone` (`\d` and `\s` are taken at their ASCII
meaning, which is what the phone strings of this system contain). -/
def phoneClassChar (c : Char) : Bool :=
  c.isDigit || c.isWhitespace || c = '-' || c = '+' || c = '(' || c = ')'

/-- Characters deleted by `re.sub(r'[\s\-\(\)]', '', phone)` before the
length count in `_validate_phone`.  Note `+` is NOT deleted. -/
def stripSubChar (c : Char) : Bool :=
  c.isWhitespace || c = '-' || c = '(' || c = ')'

/-- Embeds `MuseumService._validate_phone`: the whole string matches the
character class (nonempty, by the `+` of the regex) and at least 10
characters survive the `re.sub` deletion. -/
def _validate_phone (phone : String) : Bool :=
  !phone.data.isEmpty && phone.data.all phoneClassChar &&
    decide (10 ≤ (phone.data.filter (fun c => !stripSubChar c)).length)

/-- Embeds the duplicate-check query
`SELECT id FROM museum WHERE museum_name = ? AND city = ?`. -/
def museumExists (st : MuseumState) (name city : String) : Bool :=
  st.any (fun m => m.museum_name = name && m.city = city)

/-- Embeds `MuseumRepository.add_museum`: emptiness checks on the
stripped name and city, then the INSERT of the STRIPPED values, on which
the store enforces `UNIQUE(museum_name, city)` (database.py). -/
def add_museum (st : MuseumState) (name city address phone opening_hours : String) :
    Except Err (Nat × MuseumState) :=
  if pyStrip name = "" then .error .validation
  else if pyStrip city = "" then .error .validation
  else if museumExists st (pyStrip name) (pyStrip city) then .error .integrity
  else
    let mid := st.length + 1
    .ok (mid, st ++ [⟨mid, pyStrip name, pyStrip city, address, phone, opening_hours⟩])

/-- Embeds `MuseumService.create_museum` with the optional `phone`
keyword argument: duplicate check on the RAW (name, city) pair, phone
validation when a nonempty phone is supplied, then `add_museum`. -/
def create_museum (st : MuseumState) (name city : String) (phone : Option String) :
    Except Err (Nat × MuseumState) :=
  if museumExists st name city then .error .duplicate
  else if (match phone with
           | some p => !(p = "") && !_validate_phone p
           | none => false) then .error .validation
  else add_museum st name city "" (phone.getD "") ""

/-- The aggregate row produced by `MuseumRepository.get_museum_stats`;
`avg_rating` is NULL (`none`) when no rating was ever recorded. -/
structure MuseumStats where
  total_exhibits : Nat
  total_visits : Nat
  avg_rating : Option ℚ
deriving DecidableEq, Repr

/-- Embeds `MuseumService._calculate_performance_score`, including the
Python truthiness guards (`0` and `None` skip a component) and the final
`round(score, 2)`. -/
def _calculate_performance_score (s : MuseumStats) : ℚ :=
  let score : ℚ := 0
  let score := if 0 < s.total_exhibits then score + min 30 ((s.total_exhibits : ℚ) * 2) else score
  let score := if 0 < s.total_visits then score + min 40 ((s.total_visits : ℚ) * (1/2)) else score
  let score := match s.avg_rating with
    | some r => if r = 0 then score else score + (r / 5) * 30
    | none => score
  round2 score

/-- Embeds `MuseumService.get_museum_performance` on the stats row (the
row is `none` when `get_museum_stats` found no museum, in which case the
service raises the not-found error). -/
def get_museum_performance (stats : Option MuseumStats) : Except Err ℚ :=
  match stats with
  | none => .error .notFound
  | some s => .ok (_calculate_performance_score s)

/- ---------------------------------------------------------------
   Visitor service (business_layer.VisitorService,
   data_access_layer.VisitorRepository)
   --------------------------------------------------------------- -/

/-- Embeds the `discount_rates` dict of
`VisitorService.log_visit_with_pricing`, looked up with `.get(_, 0.0)`. -/
def discount_rate (membership_type : String) : ℚ :=
  if membership_type = "None" then 0
  else if membership_type = "Basic" then 1/10
  else if membership_type = "Premium" then 1/4
  else if membership_type = "Family" then 3/10
  else 0

/-- The ticket price computed by `log_visit_with_pricing`:
`base_price * (1 - discount)` with `base_price = 15.0`. -/
def ticket_price_for (membership_type : String) : ℚ :=
  15 * (1 - discount_rate membership_type)

/-- A row of the `guest_visit` table. -/
structure VisitRow where
  guest_ref : Nat
  museum_ref : Nat
  visit_date : ℤ
  ticket_price : ℚ
  rating : Option ℤ
deriving DecidableEq, Repr

/-- Embeds `VisitorRepository.log_visit` and the store checks on
`guest_visit`: rating range and non-negative price are pre-checked by
the repository; the `validate_visit_date` trigger rejects a visit date
after the current date as a store-level failure.  (The guest/museum
foreign keys are orthogonal to every pricing claim and not modelled:
they never alter the fields of an inserted row.) -/
def log_visit (st : List VisitRow) (now : ℤ) (visitor_id museum_id : Nat)
    (date : ℤ) (ticket_price : ℚ) (rating : Option ℤ) :
    Except Err (Nat × List VisitRow) :=
  if (match rating with | some r => decide (r < 1 ∨ 5 < r) | none => false) then
    .error .validation
  else if ticket_price < 0 then .error .validation
  else if now < date then .error .integrity
  else .ok (st.length + 1, st ++ [⟨visitor_id, museum_id, date, ticket_price, rating⟩])

/-- Embeds `VisitorService.log_visit_with_pricing`. -/
def log_visit_with_pricing (st : List VisitRow) (now : ℤ) (visitor_id museum_id : Nat)
    (date : ℤ) (membership_type : String) (rating : Option ℤ) :
    Except Err (Nat × List VisitRow) :=
  log_visit st now visitor_id museum_id date (ticket_price_for membership_type) rating

/-- A row of the `guest` table (phone and membership are carried only
where a claim needs them). -/
structure GuestRow where
  guest_id : Nat
  guest_name : String
  contact_email : String
deriving DecidableEq, Repr

/-- The guest table state. -/
abbrev GuestState := List GuestRow

/-- Embeds the schema check `contact_email LIKE '%_@_%._%'` of the
`guest` table (database.py).  A string matches that pattern exactly when
it has an `@` at some index `i ≥ 1`, a `.` at some index `j ≥ i + 2`,
and at least one further character after the `.` (`j + 2 ≤ length`):
the wildcards `%`/`_` absorb an arbitrary/a single character each, so
the pattern is `% _ @ _ % . _ %`. -/
def emailLikeOk (l : List Char) : Bool :=
  (List.range l.length).any fun i =>
    (List.range l.length).any fun j =>
      decide (1 ≤ i) && decide (i + 2 ≤ j) && decide (j + 2 ≤ l.length) &&
        decide (l[i]? = some '@') && decide (l[j]? = some '.')

/-- Modelled from the spec: the minimal `local@domain.tld` email shape
the specification requires — a non-empty local part, then `@`, then a
domain containing a `.` followed by a non-empty top-level part. -/
def emailShape (l : List Char) : Prop :=
  ∃ loc dom tld : List Char,
    loc ≠ [] ∧ tld ≠ [] ∧ l = loc ++ '@' :: (dom ++ '.' :: tld)

/-- Executable index form of `emailShape`: an `@` at index `i ≥ 1`, a
`.` at some strictly later index `j`, and at least one character after
the `.` (equivalence proved in `emailShapeB_iff_emailShape`). -/
def emailShapeB (l : List Char) : Bool :=
  (List.range l.length).any fun i =>
    (List.range l.length).any fun j =>
      decide (1 ≤ i) && decide (i + 1 ≤ j) && decide (j + 2 ≤ l.length) &&
        decide (l[i]? = some '@') && decide (l[j]? = some '.')

/-- Embeds `VisitorService.register_visitor` over
`VisitorRepository.register_visitor` and the store checks of the `guest`
table: the service duplicate check by lowercased email, the repository
email/name pre-checks (`not email or '@' not in email or '.' not in
email`), and the INSERT of the lowercased email, on which the store
enforces the `LIKE` check and the membership enum check. -/
def register_visitor (st : GuestState) (name email phone membership : String) :
    Except Err (Nat × GuestState) :=
  if st.any (fun g => g.contact_email = strLower email) then .error .duplicate
  else if email = "" ∨ ¬ email.data.contains '@' ∨ ¬ email.data.contains '.' then
    .error .validation
  else if pyStrip name = "" then .error .validation
  else if ¬ emailLikeOk (strLower email).data ∨
          ¬ (membership = "None" ∨ membership = "Basic" ∨
             membership = "Premium" ∨ membership = "Family") then
    .error .integrity
  else .ok (st.length + 1, st ++ [⟨st.length + 1, pyStrip name, strLower email⟩])

/- ---------------------------------------------------------------
   Maintenance service (business_layer.MaintenanceService,
   data_access_layer.MaintenanceRepository)
   --------------------------------------------------------------- -/

/-- A row of the `museum_item` table (only the columns the maintenance
claims read; `value` is a nullable REAL). -/
structure ItemRow where
  item_id : Nat
  condition : String
  value : Option ℚ
deriving DecidableEq, Repr

/-- A row of the `item_maintenance` table. -/
structure MaintRow where
  maintenance_id : Nat
  item_ref : Nat
  maintenance_type : String
  maintenance_date : ℤ
  specialist_name : String
  cost : ℚ
  notes : String
deriving DecidableEq, Repr

/-- The part of the database state the maintenance claims touch. -/
structure MaintState where
  items : List ItemRow
  maints : List MaintRow
deriving DecidableEq, Repr

/-- Embeds `MaintenanceRepository.add_maintenance` plus the store
constraints of `item_maintenance` (database.py): repository pre-checks
on action, specialist and cost, then the INSERT, on which the store
enforces the `item_ref` foreign key and
`CHECK(maintenance_date <= date('now'))`.  `now` is the current date
(day number). -/
def add_maintenance (st : MaintState) (now : ℤ) (item_id : Nat) (action : String)
    (date : ℤ) (specialist : String) (cost : ℚ) (notes : String) :
    Except Err (Nat × MaintState) :=
  if pyStrip action = "" then .error .validation
  else if pyStrip specialist = "" then .error .validation
  else if cost < 0 then .error .validation
  else if ¬ st.items.any (fun it => it.item_id = item_id) then .error .integrity
  else if now < date then .error .integrity
  else
    let mid := st.maints.length + 1
    .ok (mid, { st with
      maints := st.maints ++ [⟨mid, item_id, pyStrip action, date, pyStrip specialist, cost, notes⟩] })

/-- Embeds `MaintenanceService.schedule_maintenance`: the only business
rule is that the date is at most 365 days after now. -/
def schedule_maintenance (st : MaintState) (now : ℤ) (item_id : Nat) (action : String)
    (date : ℤ) (specialist : String) (cost : ℚ) (notes : String) :
    Except Err (Nat × MaintState) :=
  if now + 365 < date then .error .validation
  else add_maintenance st now item_id action date specialist cost notes

/-- Embeds `MaintenanceRepository.get_maintenance_by_date_range`:
records whose date lies in `[start, finish]` (SQL `BETWEEN` is
inclusive), joined to an existing item (the museum join always succeeds
under the schema's foreign keys), ordered by date descending. -/
def get_maintenance_by_date_range (st : MaintState) (start finish : ℤ) : List MaintRow :=
  (st.maints.filter fun m =>
      decide (start ≤ m.maintenance_date) && decide (m.maintenance_date ≤ finish) &&
        st.items.any (fun it => it.item_id = m.item_ref)).mergeSort
    fun a b => decide (b.maintenance_date ≤ a.maintenance_date)

/-- The `MAX(im.maintenance_date)` aggregate of
`MaintenanceRepository.get_overdue_maintenance` for one item (`none`
when the item was never maintained, i.e. SQL NULL). -/
def lastMaintenanceDate (st : MaintState) (item_id : Nat) : Option ℤ :=
  ((st.maints.filter (fun m => m.item_ref = item_id)).map
    (fun m => m.maintenance_date)).max?

/-- The `julianday('now') - julianday(MAX(maintenance_date))` value for
one item; `jnow` is the (fractional) julian-day value of the current
instant. -/
def daysSince (st : MaintState) (jnow : ℚ) (item_id : Nat) : Option ℚ :=
  (lastMaintenanceDate st item_id).map (fun d => jnow - (d : ℚ))

/-- The `HAVING days_since > ? OR days_since IS NULL` filter of
`get_overdue_maintenance`. -/
def overdueCond (st : MaintState) (jnow : ℚ) (threshold : ℚ) (item_id : Nat) : Bool :=
  match daysSince st jnow item_id with
  | none => true
  | some d => decide (threshold < d)

/-- A row returned by `get_overdue_maintenance` (only the columns the
plan uses). -/
structure OverdueRow where
  item_id : Nat
  days_since : Option ℚ
deriving DecidableEq, Repr

/-- SQL ordering key comparison for `ORDER BY days_since DESC`: NULL is
the smallest value in SQLite, so it sorts last under DESC. -/
def dsLE (a b : Option ℚ) : Bool :=
  match a, b with
  | none, _ => true
  | some _, none => false
  | some x, some y => decide (x ≤ y)

/-- Embeds `MaintenanceRepository.get_overdue_maintenance`: one row per
item (the query groups by `item_id`), HAVING-filtered, ordered by
`days_since` descending. -/
def get_overdue_maintenance (st : MaintState) (jnow : ℚ) (threshold : ℚ) :
    List OverdueRow :=
  ((st.items.filter (fun it => overdueCond st jnow threshold it.item_id)).map
      (fun it => OverdueRow.mk it.item_id (daysSince st jnow it.item_id))).mergeSort
    fun a b => dsLE b.days_since a.days_since

/-- A row of the generated maintenance plan. -/
structure PlanRow where
  item_id : Nat
  days_since : Option ℚ
  condition : String
  value : ℚ
  priority_score : ℚ
  urgency : String
deriving DecidableEq, Repr

/-- Embeds `MaintenanceService._get_urgency_level`. -/
def _get_urgency_level (priority_score : ℚ) : String :=
  if priority_score ≥ 80 then "CRITICAL"
  else if priority_score ≥ 60 then "HIGH"
  else if priority_score ≥ 40 then "MEDIUM"
  else "LOW"

/-- The accumulated (unrounded) `priority_score` of
`generate_maintenance_plan`: the two `if`/`elif` penalty blocks plus
`min(20, days_since / 50)`, where `days_since = item['days_since'] or
999` (Python `or` also replaces an exact 0 by 999, faithfully kept). -/
def rawPriorityScore (condition : String) (value : ℚ) (ds : Option ℚ) : ℚ :=
  (if condition = "Poor" ∨ condition = "Restoration Required" then 50
   else if condition = "Fair" then 30 else 0)
  + (if 10000 < value then 30 else if 5000 < value then 20 else 0)
  + min 20 ((match ds with
             | none => (999 : ℚ)
             | some d => if d = 0 then 999 else d) / 50)

/-- The plan entry built for one overdue item: condition and value from
the `museum_item` lookup (`value or 0` maps NULL to 0), the rounded
score, and the urgency computed from the UNROUNDED score. -/
def planRowOf (it : ItemRow) (ds : Option ℚ) : PlanRow :=
  let value : ℚ := it.value.getD 0
  let score := rawPriorityScore it.condition value ds
  ⟨it.item_id, ds, it.condition, value, round2 score, _get_urgency_level score⟩

/-- The plan list before the final sort: for each overdue row, the
`SELECT condition, value FROM museum_item WHERE item_id = ?` lookup
(skipped when it returns nothing — the `if exhibit:` guard). -/
def planUnsorted (st : MaintState) (jnow : ℚ) (threshold : ℚ) : List PlanRow :=
  (get_overdue_maintenance st jnow threshold).filterMap fun r =>
    match st.items.find? (fun it => it.item_id = r.item_id) with
    | none => none
    | some it => some (planRowOf it r.days_since)

/-- Embeds `MaintenanceService.generate_maintenance_plan`:
`sorted(plan, key=priority_score, reverse=True)` is a stable descending
sort on the stored (rounded) score. -/
def generate_maintenance_plan (st : MaintState) (jnow : ℚ) (threshold : ℚ) :
    List PlanRow :=
  (planUnsorted st jnow threshold).mergeSort
    fun a b => decide (b.priority_score ≤ a.priority_score)

/- ---------------------------------------------------------------
   Helper lemmas
   --------------------------------------------------------------- -/

/-- Rounding to two decimals is monotone. -/
theorem round2_le_round2 {a b : ℚ} (h : a ≤ b) : round2 a ≤ round2 b := by
  unfold round2
  have hr : round (a * 100) ≤ round (b * 100) := by
    rw [round_eq, round_eq]
    exact Int.floor_le_floor (by linarith)
  have : ((round (a * 100) : ℤ) : ℚ) ≤ ((round (b * 100) : ℤ) : ℚ) := by
    exact_mod_cast hr
  linarith

/-- Bounds survive the rounding to two decimals. -/
theorem round2_bounds {q : ℚ} (h0 : 0 ≤ q) (h100 : q ≤ 100) :
    0 ≤ round2 q ∧ round2 q ≤ 100 := by
  have a := round2_le_round2 h0
  have b := round2_le_round2 h100
  rw [show round2 0 = 0 from by norm_num [round2]] at a
  rw [show round2 100 = 100 from by norm_num [round2]] at b
  exact ⟨a, b⟩

/- ---------------------------------------------------------------
   Claim C10 — unknown required roles grant access
   --------------------------------------------------------------- -/

/-- Claim C10: for every user role and every required role outside
viewer, curator and admin, the required role gets rank 0 (as does any
unknown user role), so `checkAccess` returns true for every caller. -/
theorem claim_C10_unknown_role_grants_access (user_role required_role : String)
    (h1 : required_role ≠ "viewer") (h2 : required_role ≠ "curator")
    (h3 : required_role ≠ "admin") :
    role_hierarchy required_role = 0 ∧ check_access user_role required_role = true := by
  have hz : role_hierarchy required_role = 0 := by
    simp [role_hierarchy, h1, h2, h3]
  refine ⟨hz, ?_⟩
  simp [check_access, check_permission, hz]

/-- Witness for C10 at a concrete unknown role. -/
theorem claim_C10_witness :
    role_hierarchy "manager" = 0 ∧ check_access "banana" "manager" = true :=
  claim_C10_unknown_role_grants_access "banana" "manager"
    (by decide) (by decide) (by decide)

/- ---------------------------------------------------------------
   Claim C3 — membership pricing
   --------------------------------------------------------------- -/

/-- Claim C3: every successful `logVisitWithPricing` call stores a visit
row whose ticket price is `15.0 * (1 - discount)` for the membership
discount table (None 0, Basic 0.10, Premium 0.25, Family 0.30, anything
else 0); Premium yields 11.25, Family 10.50, and an unknown membership
yields 15.0. -/
theorem claim_C3_membership_pricing :
    (∀ st now visitor_id museum_id date membership_type rating vid st2,
       log_visit_with_pricing st now visitor_id museum_id date membership_type rating =
           .ok (vid, st2) →
       st2 = st ++ [⟨visitor_id, museum_id, date,
                     15 * (1 - discount_rate membership_type), rating⟩]) ∧
    ticket_price_for "Premium" = 11.25 ∧
    ticket_price_for "Family" = 10.50 ∧
    (∀ mt, mt ≠ "None" → mt ≠ "Basic" → mt ≠ "Premium" → mt ≠ "Family" →
       ticket_price_for mt = 15) := by
  refine ⟨?_, ?_, ?_, ?_⟩
  · intro st now visitor_id museum_id date mt rating vid st2 h
    unfold log_visit_with_pricing log_visit at h
    split at h
    · cases h
    · split at h
      · cases h
      · split at h
        · cases h
        · rw [Except.ok.injEq, Prod.mk.injEq] at h
          rw [← h.2, ticket_price_for]
  · simp [ticket_price_for, discount_rate]; norm_num
  · simp [ticket_price_for, discount_rate]; norm_num
  · intro mt h1 h2 h3 h4
    simp [ticket_price_for, discount_rate, h1, h2, h3, h4]

/-- Witness for C3: a concrete successful Premium visit stores the
discounted price. -/
theorem claim_C3_witness :
    [(⟨1, 1, 0, 15 * (1 - discount_rate "Premium"), none⟩ : VisitRow)] =
      [] ++ [⟨1, 1, 0, 15 * (1 - discount_rate "Premium"), none⟩] := by
  have h : log_visit_with_pricing [] 0 1 1 0 "Premium" none =
      .ok (1, [⟨1, 1, 0, 15 * (1 - discount_rate "Premium"), none⟩]) := by
    simp [log_visit_with_pricing, log_visit, ticket_price_for, discount_rate]
    norm_num
  exact claim_C3_membership_pricing.1 [] 0 1 1 0 "Premium" none 1 _ h

/- ---------------------------------------------------------------
   Claim C5 — createUser permission, validation and audit
   --------------------------------------------------------------- -/

/-- Claim C5 (amended): `createUser` fails with PermissionDenied
whenever the requester ranks below admin; for an admin requester it
fails with ValidationError if the password is shorter than 8, the
username shorter than 3, or the role is not admin/curator/viewer; but on
success NO audit entry is written, because `AuthenticationService`
builds its DAL without an acting user id — the DAL writes the audit
entry only when an acting user id is present. -/
theorem claim_C5_create_user (st : AuthState) (username password role requester_role : String) :
    (role_hierarchy requester_role < role_hierarchy "admin" →
       create_new_user st username password role requester_role = .error .permission) ∧
    (role_hierarchy "admin" ≤ role_hierarchy requester_role →
       (password.length < 8 ∨ username.length < 3 ∨
         (role ≠ "admin" ∧ role ≠ "curator" ∧ role ≠ "viewer")) →
       create_new_user st username password role requester_role = .error .validation) ∧
    (∀ uid st2, create_new_user st username password role requester_role = .ok (uid, st2) →
       st2.audit_log = st.audit_log) ∧
    (∀ acting uid st2, dal_create_user (some acting) st username password role = .ok (uid, st2) →
       st2.audit_log = st.audit_log ++
         [⟨acting, "users", "INSERT", uid, "Created user: " ++ username⟩]) := by
  refine ⟨?_, ?_, ?_, ?_⟩
  · intro hlt
    have : check_permission requester_role "admin" = false := by
      simp only [check_permission, ge_iff_le, decide_eq_false_iff_not, not_le]
      exact hlt
    simp [create_new_user, this]
  · intro hge hbad
    have hperm : check_permission requester_role "admin" = true := by
      simp only [check_permission, ge_iff_le, decide_eq_true_eq]
      exact hge
    rcases hbad with hp | hu | hr
    · simp [create_new_user, hperm, hp]
    · by_cases hp : password.length < 8
      · simp [create_new_user, hperm, hp]
      · simp [create_new_user, hperm, hp, hu]
    · by_cases hp : password.length < 8
      · simp [create_new_user, hperm, hp]
      · by_cases hu : username.length < 3
        · simp [create_new_user, hperm, hp, hu]
        · simp [create_new_user, hperm, hp, hu, dal_create_user, hr.1, hr.2.1, hr.2.2]
  · intro uid st2 h
    unfold create_new_user at h
    split at h
    · cases h
    · split at h
      · cases h
      · split at h
        · cases h
        · unfold dal_create_user at h
          split at h
          · cases h
          · split at h
            · cases h
            · rw [Except.ok.injEq, Prod.mk.injEq] at h
              rw [← h.2, log_audit]
  · intro acting uid st2 h
    unfold dal_create_user at h
    split at h
    · cases h
    · split at h
      · cases h
      · rw [Except.ok.injEq, Prod.mk.injEq] at h
        rw [← h.2, ← h.1, log_audit]

/-- Witness for C5 at concrete inputs: a curator is refused, a short
password is refused, and a DAL carrying an acting user id does write the
audit entry. -/
theorem claim_C5_witness :
    create_new_user ⟨[], []⟩ "alice" "password123" "viewer" "curator" = .error .permission ∧
    create_new_user ⟨[], []⟩ "alice" "short" "viewer" "admin" = .error .validation ∧
    (⟨[⟨1, "alice", "viewer"⟩],
      [⟨7, "users", "INSERT", 1, "Created user: alice"⟩]⟩ : AuthState).audit_log =
      ([] : List AuditRow) ++ [⟨7, "users", "INSERT", 1, "Created user: alice"⟩] :=
  ⟨(claim_C5_create_user ⟨[], []⟩ "alice" "password123" "viewer" "curator").1 (by decide),
   (claim_C5_create_user ⟨[], []⟩ "alice" "short" "viewer" "admin").2.1 (by decide)
     (Or.inl (by decide)),
   (claim_C5_create_user ⟨[], []⟩ "alice" "password123" "viewer" "admin").2.2.2 7 1 _ (by decide)⟩

/-- Counterexample for C5 as stated: a successful `createUser` call (by
an admin requester) writes NO audit entry — the audit log stays empty. -/
theorem claim_C5_counterexample :
    create_new_user ⟨[], []⟩ "alice" "password123" "viewer" "admin" =
      .ok (1, ⟨[⟨1, "alice", "viewer"⟩], []⟩) ∧
    (⟨[⟨1, "alice", "viewer"⟩], []⟩ : AuthState).audit_log = [] := by
  exact ⟨by decide, rfl⟩

/- ---------------------------------------------------------------
   Claim C7 — future maintenance dates
   --------------------------------------------------------------- -/

/-- Claim C7 (amended): every `scheduleMaintenance` call with a future
maintenance date fails and creates no record, but the error class
depends on how far ahead the date is: more than 365 days ahead is caught
by the service as ValidationError, while a future date within 365 days
passes the service check and is rejected by the store's
`CHECK(maintenance_date <= date('now'))` constraint, surfacing as the
wrapped IntegrityError (given otherwise valid arguments). -/
theorem claim_C7_future_dates (st : MaintState) (now : ℤ) (item_id : Nat)
    (action : String) (date : ℤ) (specialist : String) (cost : ℚ) (notes : String)
    (hfut : now < date) :
    (∃ e, schedule_maintenance st now item_id action date specialist cost notes = .error e) ∧
    (now + 365 < date →
       schedule_maintenance st now item_id action date specialist cost notes =
         .error .validation) ∧
    (date ≤ now + 365 → pyStrip action ≠ "" → pyStrip specialist ≠ "" → 0 ≤ cost →
       schedule_maintenance st now item_id action date specialist cost notes =
         .error .integrity) := by
  refine ⟨?_, ?_, ?_⟩
  · unfold schedule_maintenance add_maintenance
    split
    · exact ⟨.validation, rfl⟩
    · split
      · exact ⟨.validation, rfl⟩
      · split
        · exact ⟨.validation, rfl⟩
        · split
          · exact ⟨.validation, rfl⟩
          · split
            · exact ⟨.integrity, rfl⟩
            · exact ⟨.integrity, rfl⟩
  · intro h365
    unfold schedule_maintenance
    rw [if_pos h365]
  · intro h365 ha hs hc
    unfold schedule_maintenance add_maintenance
    rw [if_neg (by omega), if_neg ha, if_neg hs, if_neg (by simp [not_lt, hc]), if_pos hfut]
    split <;> rfl

/-- Witness for C7 at concrete inputs: one day ahead is rejected by the
store, 400 days ahead by the service. -/
theorem claim_C7_witness :
    schedule_maintenance ⟨[⟨1, "Good", some 0⟩], []⟩ 0 1 "Clean" 1 "Bob" 0 "" =
      .error .integrity ∧
    schedule_maintenance ⟨[⟨1, "Good", some 0⟩], []⟩ 0 1 "Clean" 400 "Bob" 0 "" =
      .error .validation :=
  ⟨(claim_C7_future_dates ⟨[⟨1, "Good", some 0⟩], []⟩ 0 1 "Clean" 1 "Bob" 0 ""
      (by decide)).2.2 (by decide) (by decide) (by decide) (by norm_num),
   (claim_C7_future_dates ⟨[⟨1, "Good", some 0⟩], []⟩ 0 1 "Clean" 400 "Bob" 0 ""
      (by decide)).2.1 (by decide)⟩

/-- Counterexample for C7 as stated: a maintenance date one day in the
future (within 365 days) does NOT fail with ValidationError — it fails
with the store's IntegrityError. -/
theorem claim_C7_counterexample :
    schedule_maintenance ⟨[⟨1, "Good", some 0⟩], []⟩ 0 1 "Clean" 1 "Bob" 0 "" =
      .error .integrity ∧ Err.integrity ≠ Err.validation := by
  exact ⟨by decide, by decide⟩

/- ---------------------------------------------------------------
   Claim C9 — maintenance round-trip
   --------------------------------------------------------------- -/

/-- Claim C9 (amended): every successfully scheduled maintenance record
read back through the date-range query over an interval containing its
date reports the date and cost passed to `scheduleMaintenance`, but the
action and specialist are reported whitespace-STRIPPED (the repository
strips them before the INSERT). -/
theorem claim_C9_roundtrip (st : MaintState) (now : ℤ) (item_id : Nat)
    (action : String) (date : ℤ) (specialist : String) (cost : ℚ) (notes : String)
    (mid : Nat) (st2 : MaintState)
    (h : schedule_maintenance st now item_id action date specialist cost notes = .ok (mid, st2))
    (start finish : ℤ) (hs : start ≤ date) (hf : date ≤ finish) :
    ∃ r ∈ get_maintenance_by_date_range st2 start finish,
      r.maintenance_type = pyStrip action ∧ r.maintenance_date = date ∧
      r.specialist_name = pyStrip specialist ∧ r.cost = cost := by
  unfold schedule_maintenance add_maintenance at h
  split at h
  · cases h
  · split at h
    · cases h
    · split at h
      · cases h
      · split at h
        · cases h
        · split at h
          · cases h
          · split at h
            · cases h
            · rename_i hitem _
              rw [Except.ok.injEq, Prod.mk.injEq] at h
              refine ⟨⟨st.maints.length + 1, item_id, pyStrip action, date,
                       pyStrip specialist, cost, notes⟩, ?_, rfl, rfl, rfl, rfl⟩
              unfold get_maintenance_by_date_range
              rw [List.mem_mergeSort, List.mem_filter]
              constructor
              · rw [← h.2]
                simp
              · have hit : st2.items = st.items := by rw [← h.2]
                rw [hit]
                simp only [Bool.and_eq_true, decide_eq_true_eq]
                exact ⟨⟨hs, hf⟩, by simpa using hitem⟩

/-- Witness for C9: a concrete schedule followed by a read-back. -/
theorem claim_C9_witness :
    ∃ r ∈ get_maintenance_by_date_range
        ⟨[⟨1, "Good", some 0⟩], [⟨1, 1, "Clean", 0, "Bob", 0, ""⟩]⟩ 0 0,
      r.maintenance_type = pyStrip "Clean " ∧ r.maintenance_date = 0 ∧
      r.specialist_name = pyStrip "Bob" ∧ r.cost = 0 :=
  claim_C9_roundtrip ⟨[⟨1, "Good", some 0⟩], []⟩ 0 1 "Clean " 0 "Bob" 0 "" 1
    ⟨[⟨1, "Good", some 0⟩], [⟨1, 1, "Clean", 0, "Bob", 0, ""⟩]⟩ (by decide)
    0 0 (by decide) (by decide)

/-- Counterexample for C9 as stated: scheduling with action `"Clean "`
(trailing blank) succeeds, but the read-back reports `"Clean"`, not the
value that was passed. -/
theorem claim_C9_counterexample :
    schedule_maintenance ⟨[⟨1, "Good", some 0⟩], []⟩ 0 1 "Clean " 0 "Bob" 0 "" =
      .ok (1, ⟨[⟨1, "Good", some 0⟩], [⟨1, 1, "Clean", 0, "Bob", 0, ""⟩]⟩) ∧
    (get_maintenance_by_date_range
        ⟨[⟨1, "Good", some 0⟩], [⟨1, 1, "Clean", 0, "Bob", 0, ""⟩]⟩ 0 0).map
      (fun r => r.maintenance_type) = ["Clean"] ∧
    ("Clean" : String) ≠ "Clean " := by
  refine ⟨by decide, ?_, by decide⟩
  simp [get_maintenance_by_date_range]

/- ---------------------------------------------------------------
   Claim C4 — duplicate museums
   --------------------------------------------------------------- -/

/-- Claim C4 (amended): after `createMuseum` succeeds for (name, city),
a second call with the same name and city always fails and creates no
museum; it fails with DuplicateError when name and city carry no
surrounding whitespace (equal their stripped forms), but when they do,
the raw-argument duplicate query misses the stripped stored row and the
failure comes from the store's UNIQUE(museum_name, city) constraint,
surfacing as IntegrityError (given a valid-or-absent phone argument). -/
theorem claim_C4_duplicate_museum (st : MuseumState) (name city : String)
    (phone : Option String) (mid : Nat) (st2 : MuseumState)
    (h : create_museum st name city phone = .ok (mid, st2)) :
    (∀ phone2, (match phone2 with
                | some p => p = "" ∨ _validate_phone p = true
                | none => True) →
       ∃ e, create_museum st2 name city phone2 = .error e) ∧
    (pyStrip name = name ∧ pyStrip city = city →
       ∀ phone2, create_museum st2 name city phone2 = .error .duplicate) ∧
    (¬ (pyStrip name = name ∧ pyStrip city = city) →
       ∀ phone2, (match phone2 with
                  | some p => p = "" ∨ _validate_phone p = true
                  | none => True) →
         create_museum st2 name city phone2 = .error .integrity) := by
  unfold create_museum add_museum at h
  split at h
  · cases h
  · split at h
    · cases h
    · split at h
      · cases h
      · split at h
        · cases h
        · split at h
          · cases h
          · rename_i hdup hphone hnm hc hu
            rw [Except.ok.injEq, Prod.mk.injEq] at h
            have hst2 : st2 = st ++ [⟨st.length + 1, pyStrip name, pyStrip city, "",
                                      phone.getD "", ""⟩] := h.2.symm
            have hex : ∀ n c : String,
                museumExists st2 n c =
                  (museumExists st n c ||
                   ((pyStrip name = n : Bool) && (pyStrip city = c : Bool))) := by
              intro n c
              rw [hst2]
              simp [museumExists, List.any_append]
            have hdup2 : museumExists st name city = false := by
              simpa using hdup
            have hDup : (pyStrip name = name ∧ pyStrip city = city) →
                ∀ phone2, create_museum st2 name city phone2 = .error .duplicate := by
              intro hfix phone2
              unfold create_museum
              rw [if_pos (by simp [hex, hfix.1, hfix.2])]
            have hInteg : ¬ (pyStrip name = name ∧ pyStrip city = city) →
                ∀ phone2, (match phone2 with
                           | some p => p = "" ∨ _validate_phone p = true
                           | none => True) →
                  create_museum st2 name city phone2 = .error .integrity := by
              intro hfix phone2 hph2
              have hd2 : museumExists st2 name city = false := by
                rw [hex, hdup2]
                simp only [Bool.false_or, Bool.and_eq_true, decide_eq_true_eq]
                rcases not_and_or.mp hfix with hn | hn
                · simp [hn]
                · simp [hn]
              unfold create_museum add_museum
              rw [if_neg (by simp [hd2])]
              rw [if_neg (by
                match phone2 with
                | none => simp
                | some p =>
                    rcases hph2 with hp | hp <;> simp [hp])]
              rw [if_neg hnm, if_neg hc, if_pos (by simp [hex])]
            refine ⟨?_, hDup, hInteg⟩
            intro phone2 hph2
            by_cases hfix : pyStrip name = name ∧ pyStrip city = city
            · exact ⟨.duplicate, hDup hfix phone2⟩
            · exact ⟨.integrity, hInteg hfix phone2 hph2⟩

/-- Witness for C4 at concrete inputs: creating the same museum twice
with clean arguments fails with DuplicateError. -/
theorem claim_C4_witness :
    create_museum [⟨1, "Louvre", "Paris", "", "", ""⟩] "Louvre" "Paris" none =
      .error .duplicate :=
  (claim_C4_duplicate_museum [] "Louvre" "Paris" none 1
      [⟨1, "Louvre", "Paris", "", "", ""⟩] (by decide)).2.1
    ⟨by decide, by decide⟩ none

/-- Counterexample for C4 as stated: with a trailing blank in the name,
the second identical call fails with the store's IntegrityError, not
with DuplicateError (the service's duplicate query compares the raw
name, the stored row holds the stripped one). -/
theorem claim_C4_counterexample :
    create_museum [] "Louvre " "Paris" none =
      .ok (1, [⟨1, "Louvre", "Paris", "", "", ""⟩]) ∧
    create_museum [⟨1, "Louvre", "Paris", "", "", ""⟩] "Louvre " "Paris" none =
      .error .integrity ∧
    Err.integrity ≠ Err.duplicate := by
  exact ⟨by decide, by decide, by decide⟩

/- ---------------------------------------------------------------
   Claim C6 — phone validation
   --------------------------------------------------------------- -/

/-- A whitespace character is not a digit. -/
theorem ws_notDigit {c : Char} (h : c.isWhitespace = true) : c.isDigit = false := by
  simp only [Char.isWhitespace, Bool.or_eq_true, decide_eq_true_eq] at h
  rcases h with (((rfl | rfl) | rfl) | rfl) <;> decide

/-- Inside the phone character class, the characters surviving the
`re.sub` deletion are exactly the digits and `+`. -/
theorem stripSub_eq_digitPlus {c : Char} (hc : phoneClassChar c = true) :
    (!stripSubChar c) = (c.isDigit || c = '+') := by
  simp only [phoneClassChar, Bool.or_eq_true, decide_eq_true_eq] at hc
  rcases hc with ((((hd | hw) | rfl) | rfl) | rfl) | rfl
  · have hws : c.isWhitespace = false := by
      by_contra hws
      rw [Bool.not_eq_false] at hws
      rw [ws_notDigit hws] at hd
      cases hd
    have h1 : c ≠ '-' := by rintro rfl; exact absurd hd (by decide)
    have h2 : c ≠ '(' := by rintro rfl; exact absurd hd (by decide)
    have h3 : c ≠ ')' := by rintro rfl; exact absurd hd (by decide)
    simp [stripSubChar, hws, h1, h2, h3, hd]
  · have hd : c.isDigit = false := ws_notDigit hw
    have h1 : c ≠ '+' := by rintro rfl; exact absurd hw (by decide)
    simp [stripSubChar, hw, hd, h1]
  · decide
  · decide
  · decide
  · decide

/-- Filtering with a pointwise-weaker predicate keeps at least as many
elements. -/
theorem length_filter_le_of_imp {p q : Char → Bool} (l : List Char)
    (h : ∀ a, p a = true → q a = true) :
    (l.filter p).length ≤ (l.filter q).length := by
  induction l with
  | nil => simp
  | cons a t ih =>
      by_cases hp : p a = true
      · rw [List.filter_cons_of_pos hp, List.filter_cons_of_pos (h a hp)]
        simpa using ih
      · rw [List.filter_cons_of_neg (by simpa using hp)]
        by_cases hq : q a = true
        · rw [List.filter_cons_of_pos hq]
          simp only [List.length_cons]
          omega
        · rw [List.filter_cons_of_neg (by simpa using hq)]
          exact ih

/-- Claim C6 (amended): with fresh, nonblank name and city,
`createMuseum` fails with ValidationError exactly when the non-empty
phone contains a character outside digits/whitespace/`+`/`-`/`(`/`)` or
contains fewer than 10 characters that are digits OR `+` — the code
counts the characters surviving `re.sub(r'[\s\-\(\)]', '', phone)`, and
that deletion does not remove `+`, so `+` signs count towards the 10
"digits".  A phone made solely of class characters with at least 10
actual digits is accepted. -/
theorem claim_C6_phone_validation (st : MuseumState) (name city p : String)
    (h1 : museumExists st name city = false)
    (h2 : pyStrip name ≠ "") (h3 : pyStrip city ≠ "")
    (h4 : museumExists st (pyStrip name) (pyStrip city) = false)
    (h5 : p ≠ "") :
    (create_museum st name city (some p) = .error .validation ↔
       (¬ p.data.all phoneClassChar = true ∨
         (p.data.filter (fun c => c.isDigit || c = '+')).length < 10)) ∧
    (p.data.all phoneClassChar = true →
       10 ≤ (p.data.filter (fun c => c.isDigit)).length →
       create_museum st name city (some p) =
         .ok (st.length + 1,
              st ++ [⟨st.length + 1, pyStrip name, pyStrip city, "", p, ""⟩])) := by
  have hne : p.data.isEmpty = false := by
    rcases p with ⟨l⟩
    cases l with
    | nil => exact absurd rfl h5
    | cons a t => rfl
  have hcount : p.data.all phoneClassChar = true →
      (p.data.filter (fun c => !stripSubChar c)).length =
        (p.data.filter (fun c => c.isDigit || c = '+')).length := by
    intro hall
    rw [List.filter_congr]
    intro c hc
    exact stripSub_eq_digitPlus (by
      rw [List.all_eq_true] at hall
      simpa using hall c hc)
  constructor
  · constructor
    · intro herr
      unfold create_museum add_museum at herr
      rw [if_neg (by simp [h1])] at herr
      split at herr
      · rename_i hcond
        simp only [Bool.and_eq_true, Bool.not_eq_true', decide_eq_false_iff_not] at hcond
        have hval : _validate_phone p = false := hcond.2
        unfold _validate_phone at hval
        rw [hne] at hval
        simp only [Bool.not_false, Bool.true_and, Bool.and_eq_false_iff,
          decide_eq_false_iff_not, not_le] at hval
        rcases hval with hval | hval
        · exact Or.inl (by simp [hval])
        · by_cases hall : p.data.all phoneClassChar = true
          · exact Or.inr (by rw [← hcount hall]; exact hval)
          · exact Or.inl hall
      · rw [if_neg (by simp [h4])] at herr
        simp at herr
    · intro hbad
      unfold create_museum
      rw [if_neg (by simp [h1])]
      rw [if_pos (by
        simp only [Bool.and_eq_true, Bool.not_eq_true', decide_eq_false_iff_not]
        refine ⟨h5, ?_⟩
        unfold _validate_phone
        rw [hne]
        simp only [Bool.not_false, Bool.true_and, Bool.and_eq_false_iff,
          decide_eq_false_iff_not, not_le]
        rcases hbad with hbad | hbad
        · exact Or.inl (by simpa using hbad)
        · by_cases hall : p.data.all phoneClassChar = true
          · exact Or.inr (by rw [hcount hall]; exact hbad)
          · exact Or.inl (by simpa using hall))]
  · intro hall hdig
    have hge : 10 ≤ (p.data.filter (fun c => !stripSubChar c)).length := by
      rw [hcount hall]
      refine le_trans hdig (length_filter_le_of_imp _ ?_)
      intro a ha
      simp [ha]
    unfold create_museum add_museum
    rw [if_neg (by simp [h1])]
    rw [if_neg (by
      simp only [Bool.and_eq_true, Bool.not_eq_true', decide_eq_false_iff_not, not_and]
      intro _
      simp [_validate_phone, hne, hall, hge])]
    rw [if_neg h2, if_neg h3, if_neg (by simp [h4])]
    rfl

/-- Witness for C6 at a concrete accepted phone of ten digits. -/
theorem claim_C6_witness :
    (create_museum [] "M" "C" (some "0123456789") = .error .validation ↔
       (¬ "0123456789".data.all phoneClassChar = true ∨
         ("0123456789".data.filter (fun c => c.isDigit || c = '+')).length < 10)) ∧
    ("0123456789".data.all phoneClassChar = true →
       10 ≤ ("0123456789".data.filter (fun c => c.isDigit)).length →
       create_museum [] "M" "C" (some "0123456789") =
         .ok (([] : MuseumState).length + 1,
              ([] : MuseumState) ++
                [⟨([] : MuseumState).length + 1, pyStrip "M", pyStrip "C", "",
                  "0123456789", ""⟩])) :=
  claim_C6_phone_validation [] "M" "C" "0123456789"
    (by decide) (by decide) (by decide) (by decide) (by decide)

/-- Counterexample for C6 as stated: the phone `"+123456789"` has only 9
digits, yet `createMuseum` accepts it — the leading `+` survives the
`re.sub` deletion and is counted towards the required 10 characters. -/
theorem claim_C6_counterexample :
    create_museum [] "M" "C" (some "+123456789") =
      .ok (1, [⟨1, "M", "C", "", "+123456789", ""⟩]) ∧
    ("+123456789".data.filter (fun c => c.isDigit)).length = 9 := by
  exact ⟨by decide, by decide⟩

/- ---------------------------------------------------------------
   Claim C2 — museum performance score
   --------------------------------------------------------------- -/

/-- Modelled from the claim: the rating component of the performance
formula, `(avgRating / 5) * 30`, 0 when no ratings are recorded. -/
def specRatingComponent (avg : Option ℚ) : ℚ :=
  match avg with
  | none => 0
  | some r => (r / 5) * 30

/-- Claim C2 (amended): `getMuseumPerformance` fails with NotFoundError
when no stats row exists; otherwise it reports
`round2(min(30, totalExhibits*2) + min(40, totalVisits*0.5) +
(avgRating/5)*30)` — the claimed sum, ROUNDED to two decimals by the
code's `round(score, 2)` — which lies in [0, 100] whenever the average
rating does; the 3-exhibit / 20-visit / rating-4.0 example scores
exactly 40.0. -/
theorem claim_C2_performance_score :
    (get_museum_performance none = .error .notFound) ∧
    (∀ s : MuseumStats,
       get_museum_performance (some s) =
         .ok (round2 (min 30 ((s.total_exhibits : ℚ) * 2) +
                      min 40 ((s.total_visits : ℚ) * (1/2)) +
                      specRatingComponent s.avg_rating))) ∧
    (∀ s : MuseumStats, (∀ r, s.avg_rating = some r → 0 ≤ r ∧ r ≤ 5) →
       ∀ q, get_museum_performance (some s) = .ok q → 0 ≤ q ∧ q ≤ 100) ∧
    (get_museum_performance (some ⟨3, 20, some 4⟩) = .ok 40) := by
  have hval : ∀ s : MuseumStats,
      _calculate_performance_score s =
        round2 (min 30 ((s.total_exhibits : ℚ) * 2) +
                min 40 ((s.total_visits : ℚ) * (1/2)) +
                specRatingComponent s.avg_rating) := by
    intro s
    unfold _calculate_performance_score
    rcases s with ⟨e, v, avg⟩
    simp only
    congr 1
    rcases Nat.eq_zero_or_pos e with he | he
    · rcases Nat.eq_zero_or_pos v with hv | hv
      · subst he; subst hv
        simp only [lt_irrefl, if_false]
        match avg with
        | none => simp [specRatingComponent]
        | some r =>
            by_cases hr : r = 0
            · subst hr; simp [specRatingComponent]
            · simp [hr, specRatingComponent]
              try norm_num
      · subst he
        simp only [lt_irrefl, if_false, hv, if_true]
        match avg with
        | none => simp [specRatingComponent]
        | some r =>
            by_cases hr : r = 0
            · subst hr; simp [specRatingComponent]; try norm_num
            · simp [hr, specRatingComponent]
              try norm_num
              try ring
    · rcases Nat.eq_zero_or_pos v with hv | hv
      · subst hv
        simp only [he, if_true, lt_irrefl, if_false]
        match avg with
        | none => simp [specRatingComponent]; try norm_num
        | some r =>
            by_cases hr : r = 0
            · subst hr; simp [specRatingComponent]; try norm_num
            · simp [hr, specRatingComponent]
              try norm_num
              try ring
      · simp only [he, if_true, hv]
        match avg with
        | none => simp [specRatingComponent]; try norm_num
        | some r =>
            by_cases hr : r = 0
            · subst hr; simp [specRatingComponent]; try norm_num
            · simp [hr, specRatingComponent]
              try ring
  refine ⟨rfl, ?_, ?_, ?_⟩
  · intro s
    simp only [get_museum_performance]
    rw [hval]
  · intro s havg q hq
    simp only [get_museum_performance] at hq
    rw [hval, Except.ok.injEq] at hq
    subst hq
    apply round2_bounds
    · have c1 : (0:ℚ) ≤ min 30 ((s.total_exhibits : ℚ) * 2) := by positivity
      have c2 : (0:ℚ) ≤ min 40 ((s.total_visits : ℚ) * (1/2)) := by positivity
      have c3 : (0:ℚ) ≤ specRatingComponent s.avg_rating := by
        match hs : s.avg_rating with
        | none => simp [specRatingComponent]
        | some r =>
            have := (havg r hs).1
            simp only [specRatingComponent]
            positivity
      linarith
    · have c1 : min 30 ((s.total_exhibits : ℚ) * 2) ≤ 30 := min_le_left _ _
      have c2 : min 40 ((s.total_visits : ℚ) * (1/2)) ≤ 40 := min_le_left _ _
      have c3 : specRatingComponent s.avg_rating ≤ 30 := by
        match hs : s.avg_rating with
        | none => simp [specRatingComponent]
        | some r =>
            have := (havg r hs).2
            simp only [specRatingComponent]
            linarith
      linarith
  · simp [get_museum_performance, _calculate_performance_score, round2]
    norm_num [round_eq]

/-- Witness for C2: the bounds at the concrete 3/20/4.0 example. -/
theorem claim_C2_witness :
    (0:ℚ) ≤ 40 ∧ (40:ℚ) ≤ 100 := by
  have h := claim_C2_performance_score
  have hb := h.2.2.1 ⟨3, 20, some 4⟩
    (by intro r hr; rw [Option.some.injEq] at hr; subst hr; norm_num) 40 h.2.2.2
  exact hb

/-- Counterexample for C2 as stated: with 1 exhibit, 7 visits and an
average rating of 10/7 (ratings 1,1,1,1,2,2,2) the code reports 14.07 —
the rounded value — while the claimed exact sum is 197/14 = 14.0714…,
so the reported score is NOT equal to the unrounded formula. -/
theorem claim_C2_counterexample :
    get_museum_performance (some ⟨1, 7, some (10/7)⟩) = .ok (1407/100) ∧
    min 30 (((1:ℕ) : ℚ) * 2) + min 40 (((7:ℕ) : ℚ) * (1/2)) + ((10/7) / 5) * 30 =
      197/14 ∧
    (1407 : ℚ)/100 ≠ 197/14 := by
  refine ⟨?_, by norm_num, by norm_num⟩
  simp [get_museum_performance, _calculate_performance_score, round2]
  norm_num [round_eq]

/- ---------------------------------------------------------------
   Claim C8 — email shape validation
   --------------------------------------------------------------- -/

/-- Valid code points below the surrogate range round-trip through
`Char.ofNat`. -/
theorem char_toNat_ofNat_valid {n : Nat} (h : n < 55296) : (Char.ofNat n).toNat = n := by
  rw [Char.ofNat, dif_pos (Or.inl h)]
  rfl

/-- Lowercasing only moves code points 65–90; any target below 65 is hit
only by itself. -/
theorem toLower_eq_of_lt {c x : Char} (hx : x.toNat < 65) : (c.toLower = x) ↔ (c = x) := by
  unfold Char.toLower
  by_cases h : c.toNat ≥ 65 ∧ c.toNat ≤ 90
  · rw [if_pos h]
    constructor
    · intro he
      exfalso
      have h32 : (Char.ofNat (c.toNat + 32)).toNat = c.toNat + 32 :=
        char_toNat_ofNat_valid (by omega)
      rw [he] at h32
      omega
    · intro he
      exfalso
      have hcx : c.toNat = x.toNat := by rw [he]
      omega
  · rw [if_neg h]

/-- Unfolded characterisation of `emailShapeB`. -/
theorem emailShapeB_eq_true_iff (l : List Char) :
    emailShapeB l = true ↔
      ∃ i j, 1 ≤ i ∧ i + 1 ≤ j ∧ j + 2 ≤ l.length ∧
        l[i]? = some '@' ∧ l[j]? = some '.' := by
  unfold emailShapeB
  simp only [List.any_eq_true, List.mem_range, Bool.and_eq_true, decide_eq_true_eq]
  constructor
  · rintro ⟨i, hi, j, hj, ⟨⟨⟨h1, h2⟩, h3⟩, h4⟩, h5⟩
    exact ⟨i, j, h1, h2, h3, h4, h5⟩
  · rintro ⟨i, j, h1, h2, h3, h4, h5⟩
    exact ⟨i, by omega, j, by omega, ⟨⟨⟨h1, h2⟩, h3⟩, h4⟩, h5⟩

/-- The executable index form agrees with the spec-modelled
`local@domain.tld` shape. -/
theorem emailShapeB_iff_emailShape (l : List Char) :
    emailShapeB l = true ↔ emailShape l := by
  rw [emailShapeB_eq_true_iff]
  constructor
  · rintro ⟨i, j, h1, h2, h3, h4, h5⟩
    obtain ⟨hilt, hieq⟩ := List.getElem?_eq_some.mp h4
    obtain ⟨hjlt, hjeq⟩ := List.getElem?_eq_some.mp h5
    refine ⟨l.take i, (l.drop (i+1)).take (j - (i+1)), l.drop (j+1), ?_, ?_, ?_⟩
    · intro hnil
      have hlen : (l.take i).length = i := by
        rw [List.length_take]
        omega
      rw [hnil] at hlen
      simp at hlen
      omega
    · intro hnil
      have hlen : (l.drop (j+1)).length = l.length - (j+1) := List.length_drop _ _
      rw [hnil] at hlen
      simp at hlen
      omega
    · have e2 : l.drop i = '@' :: l.drop (i+1) := by
        rw [List.drop_eq_getElem_cons hilt, hieq]
      have e5 : l.drop j = '.' :: l.drop (j+1) := by
        rw [List.drop_eq_getElem_cons hjlt, hjeq]
      have e4 : (l.drop (i+1)).drop (j - (i+1)) = l.drop j := by
        rw [List.drop_drop]
        congr 1
        omega
      calc l = l.take i ++ l.drop i := (List.take_append_drop i l).symm
        _ = l.take i ++ '@' :: l.drop (i+1) := by rw [e2]
        _ = l.take i ++ '@' :: ((l.drop (i+1)).take (j - (i+1)) ++
              (l.drop (i+1)).drop (j - (i+1))) := by
              rw [List.take_append_drop]
        _ = l.take i ++ '@' :: ((l.drop (i+1)).take (j - (i+1)) ++ '.' :: l.drop (j+1)) := by
              rw [e4, e5]
  · rintro ⟨loc, dom, tld, hloc, htld, rfl⟩
    have hlc : loc.length ≠ 0 := by simpa [List.length_eq_zero] using hloc
    have htl : tld.length ≠ 0 := by simpa [List.length_eq_zero] using htld
    refine ⟨loc.length, loc.length + 1 + dom.length, by omega, by omega, ?_, ?_, ?_⟩
    · simp only [List.length_append, List.length_cons]
      omega
    · rw [List.getElem?_append_right (le_refl _)]
      simp
    · rw [List.getElem?_append_right (by omega)]
      have hsub : loc.length + 1 + dom.length - loc.length = dom.length + 1 := by omega
      rw [hsub, List.getElem?_cons_succ, List.getElem?_append_right (le_refl _)]
      simp

/-- The store's LIKE pattern is strictly stronger than the spec shape
(it additionally requires a character between `@` and `.`). -/
theorem emailLikeOk_imp_shapeB {l : List Char} (h : emailLikeOk l = true) :
    emailShapeB l = true := by
  unfold emailLikeOk at h
  rw [emailShapeB_eq_true_iff]
  simp only [List.any_eq_true, List.mem_range, Bool.and_eq_true, decide_eq_true_eq] at h
  obtain ⟨i, hi, j, hj, ⟨⟨⟨h1, h2⟩, h3⟩, h4⟩, h5⟩ := h
  exact ⟨i, j, h1, by omega, h3, h4, h5⟩

/-- Lowercasing does not create or destroy the email shape: `@` and `.`
are fixed points of `Char.toLower` and positions are preserved. -/
theorem emailShapeB_map_toLower {l : List Char}
    (h : emailShapeB (l.map Char.toLower) = true) : emailShapeB l = true := by
  rw [emailShapeB_eq_true_iff] at h ⊢
  obtain ⟨i, j, h1, h2, h3, h4, h5⟩ := h
  rw [List.getElem?_map] at h4 h5
  rw [List.length_map] at h3
  refine ⟨i, j, h1, h2, h3, ?_, ?_⟩
  · match hli : l[i]? with
    | none => rw [hli] at h4; cases h4
    | some c =>
        rw [hli] at h4
        simp only [Option.map_some'] at h4
        rw [Option.some.injEq] at h4
        rw [(toLower_eq_of_lt (by decide)).mp h4]
  · match hlj : l[j]? with
    | none => rw [hlj] at h5; cases h5
    | some c =>
        rw [hlj] at h5
        simp only [Option.map_some'] at h5
        rw [Option.some.injEq] at h5
        rw [(toLower_eq_of_lt (by decide)).mp h5]

/-- Claim C8 (amended): a `registerVisitor` call whose email does not
match the minimal `local@domain.tld` shape always fails and creates no
visitor (given a fresh email, a nonblank name and a valid membership):
with ValidationError when the email is empty or lacks an `@` or lacks a
`.` — the repository's literal check — and otherwise (e.g. `a.b@c`)
with the store's IntegrityError from the email CHECK constraint, which
the lowercased stored value fails whenever the raw email fails the
shape. -/
theorem claim_C8_email_shape (st : GuestState) (name email phone membership : String)
    (hshape : emailShapeB email.data = false)
    (hfresh : ∀ g ∈ st, g.contact_email ≠ strLower email)
    (hname : pyStrip name ≠ "")
    (hmem : membership = "None" ∨ membership = "Basic" ∨
            membership = "Premium" ∨ membership = "Family") :
    register_visitor st name email phone membership =
      .error (if email = "" ∨ ¬ email.data.contains '@' ∨ ¬ email.data.contains '.'
              then .validation else .integrity) ∧
    ¬ emailShape email.data := by
  constructor
  · unfold register_visitor
    rw [if_neg (by
      simp only [List.any_eq_true, not_exists, not_and, decide_eq_true_eq]
      exact hfresh)]
    by_cases hpy : email = "" ∨ ¬ email.data.contains '@' ∨ ¬ email.data.contains '.'
    · rw [if_pos hpy, if_pos hpy]
    · rw [if_neg hpy, if_neg hpy, if_neg hname]
      rw [if_pos (Or.inl (by
        intro hlik
        have : emailShapeB email.data = true :=
          emailShapeB_map_toLower (emailLikeOk_imp_shapeB hlik)
        rw [hshape] at this
        cases this))]
  · rw [← emailShapeB_iff_emailShape, hshape]
    simp

/-- Witness for C8 at the concrete email `a.b@c`. -/
theorem claim_C8_witness :
    register_visitor [] "Al" "a.b@c" "" "None" =
      .error (if ("a.b@c" : String) = "" ∨ ¬ "a.b@c".data.contains '@' ∨
                  ¬ "a.b@c".data.contains '.'
              then .validation else .integrity) ∧
    ¬ emailShape "a.b@c".data :=
  claim_C8_email_shape [] "Al" "a.b@c" "" "None" (by decide)
    (by intro g hg; cases hg) (by decide) (Or.inl rfl)

/-- Counterexample for C8 as stated: `a.b@c` does not match the
`local@domain.tld` shape, yet the call fails with the store's
IntegrityError rather than the claimed ValidationError (the repository
only checks that an `@` and a `.` occur somewhere). -/
theorem claim_C8_counterexample :
    register_visitor [] "Al" "a.b@c" "" "None" = .error .integrity ∧
    emailShapeB "a.b@c".data = false ∧
    Err.integrity ≠ Err.validation := by
  exact ⟨by decide, by decide, by decide⟩

/- ---------------------------------------------------------------
   Claim C1 — maintenance plan
   --------------------------------------------------------------- -/

/-- Modelled from the claim: conditionPenalty is 50 for Poor or
Restoration Required, 30 for Fair, else 0. -/
def specConditionPenalty (condition : String) : ℚ :=
  if condition = "Poor" ∨ condition = "Restoration Required" then 50
  else if condition = "Fair" then 30 else 0

/-- Modelled from the claim: valuePenalty is 30 for value > 10000, 20
for value > 5000, else 0. -/
def specValuePenalty (value : ℚ) : ℚ :=
  if 10000 < value then 30 else if 5000 < value then 20 else 0

/-- Modelled from the claim: timePenalty is min(20, daysSince / 50),
with daysSince treated as 999 when never maintained. -/
def specTimePenalty (ds : Option ℚ) : ℚ :=
  min 20 (ds.getD 999 / 50)

/-- The code's accumulated score agrees with the claimed three-penalty
sum whenever `days_since` is not exactly 0 (the Python `or` would remap
an exact 0.0 to the 999 sentinel; the overdue filter makes 0
unreachable for a non-negative threshold). -/
theorem rawScore_eq_spec (c : String) (v : ℚ) (ds : Option ℚ)
    (h : ∀ d, ds = some d → d ≠ 0) :
    rawPriorityScore c v ds =
      specConditionPenalty c + specValuePenalty v + specTimePenalty ds := by
  unfold rawPriorityScore specConditionPenalty specValuePenalty specTimePenalty
  congr 1
  match ds with
  | none => simp
  | some d => simp [h d rfl]

/-- With pairwise-distinct item ids, `find?` by id recovers the member
itself. -/
theorem find?_eq_some_of_nodup_ids (items : List ItemRow)
    (hids : (items.map (fun it => it.item_id)).Nodup) (it : ItemRow) (hmem : it ∈ items) :
    items.find? (fun j => j.item_id = it.item_id) = some it := by
  induction items with
  | nil => cases hmem
  | cons a rest ih =>
      rw [List.map_cons, List.nodup_cons] at hids
      rcases List.mem_cons.mp hmem with rfl | hmem2
      · rw [List.find?_cons_of_pos _ (by simp)]
      · have hne : a.item_id ≠ it.item_id := by
          intro he
          exact hids.1 (by rw [he]; exact List.mem_map_of_mem _ hmem2)
        rw [List.find?_cons_of_neg _ (by simpa using hne)]
        exact ih hids.2 hmem2

/-- A `filterMap` that never drops an element is a `map`. -/
theorem filterMap_eq_map_of_forall {α β : Type} (f : α → Option β) (g : α → β)
    (l : List α) (h : ∀ a ∈ l, f a = some (g a)) : l.filterMap f = l.map g := by
  induction l with
  | nil => rfl
  | cons a t ih =>
      simp only [List.filterMap_cons, h a (List.mem_cons_self a t), List.map_cons]
      rw [ih (fun x hx => h x (List.mem_cons_of_mem a hx))]

/-- Claim C1 (amended): for a non-negative threshold and distinct item
ids, `generateMaintenancePlan` returns exactly (a permutation
characterisation of membership) the exhibits whose most recent
maintenance is older than the threshold or that were never maintained;
each entry's stored priorityScore equals
`round2(conditionPenalty + valuePenalty + timePenalty)` — the claimed
sum ROUNDED to two decimals by the code's `round(priority_score, 2)` —
while the urgency label is computed from the UNROUNDED sum
(CRITICAL ≥ 80, HIGH ≥ 60, MEDIUM ≥ 40, else LOW); the result is sorted
descending by the stored priorityScore, ties keeping the prior relative
order; and the Poor/50000/400-days example scores exactly 88,
CRITICAL. -/
theorem claim_C1_maintenance_plan (st : MaintState) (jnow threshold : ℚ)
    (hthr : 0 ≤ threshold)
    (hids : (st.items.map (fun it => it.item_id)).Nodup) :
    (generate_maintenance_plan st jnow threshold).Perm
        ((st.items.filter (fun it => overdueCond st jnow threshold it.item_id)).map
          (fun it => planRowOf it (daysSince st jnow it.item_id))) ∧
    (∀ x ∈ generate_maintenance_plan st jnow threshold,
       x.priority_score =
         round2 (specConditionPenalty x.condition + specValuePenalty x.value +
                 specTimePenalty x.days_since) ∧
       x.urgency = _get_urgency_level (specConditionPenalty x.condition +
                 specValuePenalty x.value + specTimePenalty x.days_since)) ∧
    (generate_maintenance_plan st jnow threshold).Pairwise
        (fun a b => b.priority_score ≤ a.priority_score) ∧
    (∀ a b : PlanRow, a.priority_score = b.priority_score →
       [a, b].Sublist (planUnsorted st jnow threshold) →
       [a, b].Sublist (generate_maintenance_plan st jnow threshold)) ∧
    planRowOf ⟨1, "Poor", some 50000⟩ (some 400) =
      ⟨1, some 400, "Poor", 50000, 88, "CRITICAL"⟩ := by
  have hperm : (generate_maintenance_plan st jnow threshold).Perm
      ((st.items.filter (fun it => overdueCond st jnow threshold it.item_id)).map
        (fun it => planRowOf it (daysSince st jnow it.item_id))) := by
    unfold generate_maintenance_plan
    refine (List.mergeSort_perm _ _).trans ?_
    unfold planUnsorted get_overdue_maintenance
    refine ((List.mergeSort_perm _ _).filterMap _).trans ?_
    rw [List.filterMap_map]
    rw [filterMap_eq_map_of_forall _
          (fun it => planRowOf it (daysSince st jnow it.item_id)) _ ?_]
    · intro it hit
      have hmem : it ∈ st.items := (List.mem_filter.mp hit).1
      simp only [Function.comp]
      rw [find?_eq_some_of_nodup_ids st.items hids it hmem]
  refine ⟨hperm, ?_, ?_, ?_, ?_⟩
  · intro x hx
    have hx2 := hperm.mem_iff.mp hx
    obtain ⟨it, hit, rfl⟩ := List.mem_map.mp hx2
    obtain ⟨hmem2, hcond⟩ := List.mem_filter.mp hit
    have hds : ∀ d, daysSince st jnow it.item_id = some d → d ≠ 0 := by
      intro d hd
      unfold overdueCond at hcond
      rw [hd] at hcond
      simp only [decide_eq_true_eq] at hcond
      intro h0
      rw [h0] at hcond
      linarith
    unfold planRowOf
    simp only
    rw [← rawScore_eq_spec _ _ _ hds]
    exact ⟨rfl, rfl⟩
  · unfold generate_maintenance_plan
    have h : (List.mergeSort (planUnsorted st jnow threshold)
        (fun a b => decide (b.priority_score ≤ a.priority_score))).Pairwise
        (fun a b => decide (b.priority_score ≤ a.priority_score) = true) :=
      List.sorted_mergeSort
        (fun a b c hab hbc => by
          simp only [decide_eq_true_eq] at *
          exact le_trans hbc hab)
        (fun a b => by
          simp only [Bool.or_eq_true, decide_eq_true_eq]
          exact le_total b.priority_score a.priority_score)
        (planUnsorted st jnow threshold)
    exact h.imp (by intro a b hab; simpa using hab)
  · intro a b heq hsub
    unfold generate_maintenance_plan
    refine List.pair_sublist_mergeSort
      (fun a b c hab hbc => by
        simp only [decide_eq_true_eq] at *
        exact le_trans hbc hab)
      (fun a b => by
        simp only [Bool.or_eq_true, decide_eq_true_eq]
        exact le_total b.priority_score a.priority_score)
      (by simp [heq]) hsub
  · simp [planRowOf, rawPriorityScore, _get_urgency_level, round2]
    norm_num [round_eq, min_def]

/-- Witness for C1: the theorem applied to a concrete one-item state
(Poor, value 50000, last maintained 400 days before now). -/
theorem claim_C1_witness :
    planRowOf ⟨1, "Poor", some 50000⟩ (some 400) =
      ⟨1, some 400, "Poor", 50000, 88, "CRITICAL"⟩ :=
  (claim_C1_maintenance_plan
      ⟨[⟨1, "Poor", some 50000⟩], [⟨1, 1, "x", 0, "y", 0, ""⟩]⟩ 400 365
      (by norm_num) (by decide)).2.2.2.2

/-- Counterexample for C1 as stated: with a (julianday) days-since of
400.2, the plan stores priorityScore 88 — the rounded value — while the
claimed formula sum is 88.004, so the assigned score is NOT equal to
conditionPenalty + valuePenalty + timePenalty. -/
theorem claim_C1_counterexample :
    (generate_maintenance_plan ⟨[⟨1, "Poor", some 50000⟩], [⟨1, 1, "x", 0, "y", 0, ""⟩]⟩
        (2001/5) 365).map (fun x => x.priority_score) = [88] ∧
    specConditionPenalty "Poor" + specValuePenalty 50000 + specTimePenalty (some (2001/5)) =
      88 + 1/250 ∧
    (88 : ℚ) ≠ 88 + 1/250 := by
  refine ⟨?_, ?_, by norm_num⟩
  · have hds : daysSince ⟨[⟨1, "Poor", some 50000⟩], [⟨1, 1, "x", 0, "y", 0, ""⟩]⟩
        (2001/5) 1 = some (2001/5) := by
      simp [daysSince, lastMaintenanceDate]
      try norm_num
    have hb : (overdueCond ⟨[⟨1, "Poor", some 50000⟩], [⟨1, 1, "x", 0, "y", 0, ""⟩]⟩
        (2001/5) 365 1) = true := by
      simp only [overdueCond, hds, decide_eq_true_eq]
      norm_num
    have hover : get_overdue_maintenance
        ⟨[⟨1, "Poor", some 50000⟩], [⟨1, 1, "x", 0, "y", 0, ""⟩]⟩ (2001/5) 365 =
        [⟨1, some (2001/5)⟩] := by
      simp [get_overdue_maintenance, hb, hds]
    have hplan : planUnsorted ⟨[⟨1, "Poor", some 50000⟩], [⟨1, 1, "x", 0, "y", 0, ""⟩]⟩
        (2001/5) 365 = [planRowOf ⟨1, "Poor", some 50000⟩ (some (2001/5))] := by
      simp [planUnsorted, hover]
    have hrow : planRowOf ⟨1, "Poor", some 50000⟩ (some (2001/5)) =
        ⟨1, some (2001/5), "Poor", 50000, 88, "CRITICAL"⟩ := by
      simp [planRowOf, rawPriorityScore, _get_urgency_level, round2]
      norm_num [round_eq, min_def]
    simp [generate_maintenance_plan, hplan, hrow]
  · norm_num [specConditionPenalty, specValuePenalty, specTimePenalty, min_def]

end MuseumSys
